import Mathlib

/-!
Shallow embedding of `src/tools/port_scanner/scan.py` (the port scanner /
process closer tool).

The Python program performs OS effects: TCP connect probes, shelling out to
`netstat`, `ps` and `lsof`, sending signals, sleeping, and reading stdin.
Each effect is modelled by an explicit environment value that records what the
OS would have answered for that call site:

* `ConnectOutcome` — the result of one `socket.connect_ex` call (an error code)
  or an exception raised while probing.
* `SubpResult` — the result of one `subprocess.run` call: its return code and
  captured stdout, or an exception raised by the call (e.g. the tool missing).
* `KillExn` — whether an `os.kill` call returned normally or raised
  `ProcessLookupError`, `PermissionError`, or another exception.

Only the POSIX (the os.name check for nt fails) branches are modelled; the Windows branches
are dead on the platform the spec describes.  Python string operations used by
the parser (`str.strip`, `str.split`, newline split, split-once on slash,
substring membership, `int(...)` on the digit strings produced by the OS
tools) are implemented below over `List Char` so that every definition
evaluates by kernel reduction.  `time.sleep` has no modelled effect beyond the
event recorded in the close-protocol trace; wall-clock `scan_time` is elided
from the modelled output (it is real time, outside the embedding).
-/

/-! ### Python string primitives over `List Char` -/

/-- Python str.strip on the character list: drop whitespace from both ends. -/
def pyStripL (l : List Char) : List Char :=
  ((l.dropWhile Char.isWhitespace).reverse.dropWhile Char.isWhitespace).reverse

/-- Python str.strip. -/
def pyStrip (s : String) : String :=
  String.mk (pyStripL s.toList)

/-- Worker for `pySplitWs`: split on runs of whitespace, dropping empties,
accumulating the current token reversed. -/
def wsSplitAux : List Char → List Char → List String
  | [], acc => if acc.isEmpty then [] else [String.mk acc.reverse]
  | c :: cs, acc =>
    if c.isWhitespace then
      if acc.isEmpty then wsSplitAux cs []
      else String.mk acc.reverse :: wsSplitAux cs []
    else wsSplitAux cs (c :: acc)

/-- Python str.split with no argument: split on whitespace runs, no empty parts. -/
def pySplitWs (s : String) : List String :=
  wsSplitAux s.toList []

/-- Worker for `pySplitNl`. -/
def splitLinesAux : List Char → List Char → List String
  | [], acc => [String.mk acc.reverse]
  | c :: cs, acc =>
    if c = '\n' then String.mk acc.reverse :: splitLinesAux cs []
    else splitLinesAux cs (c :: acc)

/-- Python newline split (str.split on the newline character). -/
def pySplitNl (s : String) : List String :=
  splitLinesAux s.toList []

/-- Substring membership, Python `pat in line`. -/
def hasSubstr (pat : List Char) : List Char → Bool
  | [] => pat.isEmpty
  | c :: rest => List.isPrefixOf pat (c :: rest) || hasSubstr pat rest

/-- Worker for `splitSlashOnce`. -/
def splitSlashAux : List Char → List Char → String × String
  | [], acc => (String.mk acc.reverse, "")
  | c :: cs, acc =>
    if c = '/' then (String.mk acc.reverse, String.mk cs)
    else splitSlashAux cs (c :: acc)

/-- Python split-once on slash (str.split with maxsplit 1) for a string known to contain a slash: the part before
the first `/` and everything after it. -/
def splitSlashOnce (s : String) : String × String :=
  splitSlashAux s.toList []

/-- Digit-list accumulator for `pyInt`. -/
def digitsToNat (acc : Nat) : List Char → Option Nat
  | [] => some acc
  | c :: cs => if c.isDigit then digitsToNat (acc * 10 + (c.toNat - 48)) cs else none

/-- Python int(s) restricted to the nonnegative digit strings the OS tools emit
(pid columns): `some` the parsed value on an all-digit nonempty string,
`none` when the parse raises `ValueError`. -/
def pyInt (s : String) : Option Nat :=
  match s.toList with
  | [] => none
  | l => digitsToNat 0 l

/-- A single quote character, for reproducing Python error text. -/
def squote : String := String.mk [Char.ofNat 39]

/-- The text of the `ValueError` raised by `int(s)` on a non-numeric string. -/
def intParseErrorText (s : String) : String :=
  "invalid literal for int() with base 10: " ++ squote ++ s ++ squote

/-! ### PortProbe: `scan_port` -/

/-- What one TCP probe attempt did: `connect_ex` returned error code `c`
(`0` means the connection was established within the timeout), or the socket
operation raised an exception (refused / timeout / unreachable / permission
conditions surface as a nonzero code or an exception, never as a crash of the
caller). -/
inductive ConnectOutcome where
  | code (c : Int)
  | raised
deriving DecidableEq, Repr

/-- The function `scan_port` (scan.py lines 55-63): true iff `connect_ex` returned `0`;
every exception is caught and yields `False`. -/
def scan_port (outcome : ConnectOutcome) : Bool :=
  match outcome with
  | .code c => c == 0
  | .raised => false

/-! ### OwnerResolver: `get_process_info` -/

/-- Result of one `subprocess.run` call: return code and captured stdout, or
an exception raised by the call itself. -/
inductive SubpResult where
  | ok (returncode : Int) (stdout : String)
  | raised
deriving Repr

/-- The process information `get_process_info` returns (all string-valued,
as in the Python dict). -/
structure OwnerInfo where
  process_id : String
  process_name : String
  process_command : String
deriving DecidableEq, Repr

/-- Environment for one `get_process_info` call: what each external tool
invocation would return.  `netstat` is the combined pipeline
`netstat -tlnp | grep :{port}`; `psComm`/`psArgs` are `ps -p pid -o comm=` /
`ps -p pid -o args=` keyed by the pid string; `lsof` is `lsof -i :{port} -t`. -/
structure OwnerEnv where
  netstat : SubpResult
  psComm : String → SubpResult
  psArgs : String → SubpResult
  lsof : SubpResult

/-- Lines 82-88 of scan.py: take the last whitespace-separated column of a
netstat line and split it as `PID/process_name`; with no slash the whole
column is the pid and the name is `"unknown"`. -/
def pidSplit (pid_info : String) : String × String :=
  if pid_info.toList.contains '/' then splitSlashOnce pid_info
  else (pid_info, "unknown")

/-- Lines 90-119 of scan.py (POSIX branch): refine a netstat-derived pid and
name via `ps`.  An exception from either `ps` call is caught by the inner
handler, which returns the information gathered so far with the command set to
`"unknown"`; a nonzero `ps` return code leaves the netstat name (for `comm=`)
or yields `"unknown"` (for `args=`). -/
def detailFromPs (env : OwnerEnv) (pid name0 : String) : OwnerInfo :=
  match env.psComm pid with
  | .raised => ⟨pid, name0, "unknown"⟩
  | .ok rc out =>
    let name1 := if rc == 0 then pyStrip out else name0
    match env.psArgs pid with
    | .raised => ⟨pid, name1, "unknown"⟩
    | .ok rc2 out2 =>
      let command := if rc2 == 0 then pyStrip out2 else ("unknown")
      ⟨pid, name1, command⟩

/-- Lines 77-119 of scan.py: walk the netstat output lines; on the first line
containing `:{port}` with more than 6 columns, extract the pid column and
refine it via `ps`; other lines are skipped. -/
def scanNetstatLines (env : OwnerEnv) (port : Int) : List String → Option OwnerInfo
  | [] => none
  | line :: rest =>
    if hasSubstr ((":" ++ toString port).toList) line.toList then
      let parts := pySplitWs line
      if parts.length > 6 then
        let pid_info := parts.getLast?.getD ("")
        let pn := pidSplit pid_info
        some (detailFromPs env pn.1 pn.2)
      else scanNetstatLines env port rest
    else scanNetstatLines env port rest

/-- Lines 121-151 of scan.py: the `lsof` fallback.  Any exception inside this
block (including from the `ps` calls) hits `except Exception: pass` and the
whole lookup yields `none`. -/
def lsofLookup (env : OwnerEnv) : Option OwnerInfo :=
  match env.lsof with
  | .raised => none
  | .ok rc out =>
    if rc == 0 && pyStrip out ≠ "" then
      let pid := (pySplitNl (pyStrip out)).headD ("")
      match env.psComm pid with
      | .raised => none
      | .ok rc1 out1 =>
        let process_name := if rc1 == 0 then pyStrip out1 else ("unknown")
        match env.psArgs pid with
        | .raised => none
        | .ok rc2 out2 =>
          let command := if rc2 == 0 then pyStrip out2 else ("unknown")
          some ⟨pid, process_name, command⟩
    else none

/-- The function `get_process_info` (scan.py lines 65-155, POSIX branches): first the
netstat pipeline, then the `lsof` fallback; every failure mode yields `none`
(the outer handler catches everything, including an exception from the
netstat invocation itself). -/
def get_process_info (env : OwnerEnv) (port : Int) : Option OwnerInfo :=
  match env.netstat with
  | .raised => none
  | .ok rc out =>
    let viaNetstat :=
      if rc == 0 && pyStrip out ≠ "" then
        scanNetstatLines env port (pySplitNl (pyStrip out))
      else none
    match viaNetstat with
    | some info => some info
    | none => lsofLookup env

/-! ### ScanPlanner and ScanCoordinator: `scan_ports` -/

/-- The constant `COMMON_PORTS` (scan.py lines 48-53), in source order. -/
def COMMON_PORTS : List Int :=
  [21, 22, 23, 25, 53, 80, 110, 143, 443, 993, 995,
   1433, 1521, 3306, 5432, 6379, 27017,
   3000, 3001, 4000, 5000, 5173, 8000, 8080, 8443,
   9000, 9001, 9090, 3030, 4200, 5500, 8888, 9999]

/-- Python `range(a, b)` over integers. -/
def pyRange (a b : Int) : List Int :=
  (List.range (b - a).toNat).map (fun (i : Nat) => a + (i : Int))

/-- One record of the `open_ports` output array. -/
structure PortInfo where
  port : Int
  protocol : String
  process_name : String
  process_id : String
  process_command : String
deriving DecidableEq, Repr

/-- Environment for one scan: the probe outcome for each port and the
owner-resolution environment for each port. -/
structure ScanEnv where
  probe : Int → ConnectOutcome
  owner : Int → OwnerEnv

/-- Lines 215-228 of scan.py: the record starts from `"unknown"` placeholders
for all three process fields and is updated with whatever `get_process_info`
returned (when it returned anything). -/
def mkPortRecord (port : Int) (info : Option OwnerInfo) : PortInfo :=
  match info with
  | some i => ⟨port, "tcp", i.process_name, i.process_id, i.process_command⟩
  | none => ⟨port, "tcp", "unknown", "unknown", "unknown"⟩

/-- Lines 208-211 of scan.py: the list of ports the scan will probe. -/
def ports_to_scan (port_range : List Int) (common_ports_only : Bool) : List Int :=
  if common_ports_only then
    COMMON_PORTS.filter (fun p => decide (port_range.getD 0 0 ≤ p ∧ p ≤ port_range.getD 1 0))
  else
    pyRange (port_range.getD 0 0) (port_range.getD 1 0 + 1)

/-- The `for port in ports_to_scan` loop of `scan_ports` (lines 213-228):
probe each port in order; for each open one emit a record, resolving the
owner best-effort. -/
def scan_ports_loop (env : ScanEnv) : List Int → List PortInfo
  | [] => []
  | p :: rest =>
    if scan_port (env.probe p) then
      mkPortRecord p (get_process_info (env.owner p) p) :: scan_ports_loop env rest
    else scan_ports_loop env rest

/-- The function `scan_ports` (scan.py lines 204-230). -/
def scan_ports (env : ScanEnv) (port_range : List Int) (common_ports_only : Bool) :
    List PortInfo :=
  scan_ports_loop env (ports_to_scan port_range common_ports_only)

/-! ### ProcessCloser: `close_port` -/

/-- Outcome of one `os.kill` call: returned normally, or raised
`ProcessLookupError`, `PermissionError`, or some other exception carrying
message `msg`. -/
inductive KillExn where
  | processLookup
  | permission
  | other (msg : String)
deriving DecidableEq, Repr

/-- Environment for one `close_port` call: the owner-resolution environment,
the outcome of the SIGTERM and SIGKILL calls (`none` = returned normally),
and the probe outcomes of the two verification re-probes. -/
structure CloseEnv where
  owner : OwnerEnv
  sigtermRes : Option KillExn
  probeAfterTerm : ConnectOutcome
  sigkillRes : Option KillExn
  probeAfterKill : ConnectOutcome

/-- Observable steps of the close protocol, in execution order: owner
resolution (did it find a process), the graceful kill attempt, the forced
kill attempt, the 1-second settle wait, and a verification re-probe with the
openness it observed. -/
inductive CloseEvent where
  | resolve (found : Bool)
  | sigterm
  | sigkill
  | settle
  | reprobe (isOpen : Bool)
deriving DecidableEq, Repr

/-- Lines 194-199 of scan.py: the handlers of the inner `try` around the two
kill attempts. -/
def killHandler (port : Int) (e : KillExn) : Bool × String :=
  match e with
  | .processLookup => (true, "Process using port " ++ toString port ++ " was already terminated")
  | .permission =>
    (false, "Permission denied - cannot terminate process using port " ++ toString port)
  | .other msg =>
    (false, "Failed to terminate process using port " ++ toString port ++ ": " ++ msg)

/-- The function `close_port` (scan.py lines 157-202, POSIX branches), instrumented with
the trace of protocol events it performs.  Resolution failure is a terminal
failure; `int(...)` failing on the pid string hits the outer handler; then
SIGTERM, settle, re-probe, and only if still open SIGKILL, settle, re-probe. -/
def close_port (env : CloseEnv) (port : Int) : List CloseEvent × Bool × String :=
  match get_process_info env.owner port with
  | none => ([.resolve false], false, "No process found using port " ++ toString port)
  | some info =>
    match pyInt info.process_id with
    | none =>
      ([.resolve true], false,
        "Error closing port " ++ toString port ++ ": " ++ intParseErrorText info.process_id)
    | some pid =>
      match env.sigtermRes with
      | some e => ([.resolve true, .sigterm], killHandler port e)
      | none =>
        if !scan_port env.probeAfterTerm then
          ([.resolve true, .sigterm, .settle, .reprobe false], true,
            "Successfully closed port " ++ toString port ++ " (terminated "
              ++ info.process_name ++ ", PID: " ++ toString pid ++ ")")
        else
          match env.sigkillRes with
          | some e =>
            ([.resolve true, .sigterm, .settle, .reprobe true, .sigkill], killHandler port e)
          | none =>
            if !scan_port env.probeAfterKill then
              ([.resolve true, .sigterm, .settle, .reprobe true, .sigkill, .settle,
                 .reprobe false], true,
                "Successfully closed port " ++ toString port ++ " (force killed "
                  ++ info.process_name ++ ", PID: " ++ toString pid ++ ")")
            else
              ([.resolve true, .sigterm, .settle, .reprobe true, .sigkill, .settle,
                 .reprobe true], false,
                "Failed to close port " ++ toString port ++ " - process may be protected")

/-! ### RequestDispatcher: `main` -/

/-- The recognized fields of a decoded request object (each absent when the
JSON object lacks the key). -/
structure Request where
  action : Option String := none
  port_range : Option (List Int) := none
  common_ports_only : Option Bool := none
  port_to_close : Option Int := none

/-- What arrived on stdin: whitespace-only input (the explicit
`No input data received` check fires before JSON decoding), input on which
`json.loads` raises a `JSONDecodeError` with message `err`, or a decoded
request object. -/
inductive Stdin where
  | empty
  | malformed (err : String)
  | valid (req : Request)

/-- The single JSON object the program prints: a scan success (the wall-clock
`scan_time` field is elided — it is real time, outside the embedding), a
close response, or the failure shape `{"success": false, "message": ...}`. -/
inductive Output where
  | scanOk (open_ports : List PortInfo) (scan_range : List Int) (total_scanned : Int)
      (common_ports_only : Bool)
  | closeResp (success : Bool) (port : Int) (message : String)
  | failure (message : String)
deriving DecidableEq, Repr

/-- Environment for one whole invocation. -/
structure MainEnv where
  scan : ScanEnv
  close : CloseEnv

/-- Text of the `ValueError` raised for an unknown action (scan.py line 293). -/
def invalidActionMsg (act : String) : String :=
  "Invalid action: " ++ act ++ ". Must be " ++ squote ++ "scan" ++ squote
    ++ " or " ++ squote ++ "close" ++ squote

/-- The function `main` of scan.py (lines 232-311): validation, dispatch, the in-place clamp
of `port_range[1]` when the span exceeds 10000 and common-ports mode is off,
the `total_scanned` computation, and the two `except` handlers that turn any
raised error into the failure JSON shape plus exit code 1.  The returned
`Nat` is the process exit code. -/
def mainRun (env : MainEnv) (input : Stdin) : Output × Nat :=
  match input with
  | .empty => (.failure ("Error: No input data received"), 1)
  | .malformed err => (.failure ("Invalid JSON input: " ++ err), 1)
  | .valid req =>
    match req.action with
    | none => (.failure ("Error: Missing required field: action"), 1)
    | some act =>
      if act == "scan" then
        let pr0 := req.port_range.getD [1, 65535]
        let common := req.common_ports_only.getD false
        if pr0.length ≠ 2 ∨ pr0.getD 0 0 > pr0.getD 1 0 then
          (.failure ("Error: Invalid port_range: must be [start_port, end_port]"), 1)
        else
          let pr :=
            if 10000 < pr0.getD 1 0 - pr0.getD 0 0 ∧ common = false then
              [pr0.getD 0 0, pr0.getD 0 0 + 10000]
            else pr0
          let opens := scan_ports env.scan pr common
          let total : Int :=
            if common then
              ((COMMON_PORTS.filter
                (fun p => decide (pr.getD 0 0 ≤ p ∧ p ≤ pr.getD 1 0))).length : Int)
            else min (pr.getD 1 0 - pr.getD 0 0 + 1) 10001
          (.scanOk opens pr total common, 0)
      else if act == "close" then
        match req.port_to_close with
        | none =>
          (.failure ("Error: Missing required field for close action: port_to_close"), 1)
        | some p =>
          let r := close_port env.close p
          (.closeResp r.2.1 p r.2.2, 0)
      else
        (.failure ("Error: " ++ invalidActionMsg act), 1)

/-! ### Concrete environments for witnesses and counterexamples -/

/-- An owner environment in which netstat finds pid 123 (`node`) on port 9090. -/
def wOwnerFound : OwnerEnv :=
  { netstat := .ok 0 ("tcp 0 0 0.0.0.0:9090 0.0.0.0:* LISTEN 123/node")
    psComm := fun _ => .ok 0 ("node")
    psArgs := fun _ => .ok 0 ("node server.js")
    lsof := .ok 1 ("") }

/-- An owner environment in which both netstat and lsof find nothing. -/
def wOwnerNone : OwnerEnv :=
  { netstat := .ok 1 ("")
    psComm := fun _ => .ok 1 ("")
    psArgs := fun _ => .ok 1 ("")
    lsof := .ok 1 ("") }

/-- A close environment with no owning process anywhere. -/
def wCloseNoProc : CloseEnv :=
  { owner := wOwnerNone, sigtermRes := none, probeAfterTerm := .code 111
    sigkillRes := none, probeAfterKill := .code 111 }

/-- A close environment in which the target vanished before the SIGTERM:
the graceful kill raises `ProcessLookupError`. -/
def wCloseVanished : CloseEnv :=
  { owner := wOwnerFound, sigtermRes := some .processLookup, probeAfterTerm := .code 0
    sigkillRes := none, probeAfterKill := .code 0 }

/-- A close environment in which the process survives both signals. -/
def wCloseProtected : CloseEnv :=
  { owner := wOwnerFound, sigtermRes := none, probeAfterTerm := .code 0
    sigkillRes := none, probeAfterKill := .code 0 }

/-- A close environment in which the SIGTERM raises `PermissionError`. -/
def wClosePermission : CloseEnv :=
  { owner := wOwnerFound, sigtermRes := some .permission, probeAfterTerm := .code 0
    sigkillRes := none, probeAfterKill := .code 0 }

/-- A scan environment in which every probe is refused (errno 111). -/
def wScanEnv : ScanEnv :=
  { probe := fun _ => .code 111, owner := fun _ => wOwnerNone }

/-- A scan environment with a listener only on port 8080, whose owner
resolution finds nothing. -/
def wScanOpen : ScanEnv :=
  { probe := fun p => if p = 8080 then .code 0 else .code 111
    owner := fun _ => wOwnerNone }

/-- A full invocation environment for witnesses. -/
def wMainEnv : MainEnv := { scan := wScanEnv, close := wCloseNoProc }

/-- A full invocation environment whose close side denies permission. -/
def wMainEnvPerm : MainEnv := { scan := wScanEnv, close := wClosePermission }

/-! ### Theorems -/

/-- C7: the port probe is a total Boolean function of the connection attempt
outcome: it returns `true` iff `connect_ex` established the connection
(returned `0`) within the timeout; every nonzero error code and every raised
connection error (refused, timeout, unreachable, permission) yields `false`
rather than a raised failure. -/
theorem C7_scan_port_total_boolean (o : ConnectOutcome) :
    (scan_port o = true ↔ o = ConnectOutcome.code 0) ∧
    (∀ c : Int, c ≠ 0 → scan_port (ConnectOutcome.code c) = false) ∧
    scan_port ConnectOutcome.raised = false := by
  refine ⟨?_, ?_, rfl⟩
  · cases o with
    | code c => simp [scan_port]
    | raised => simp [scan_port]
  · intro c hc
    simp [scan_port, hc]

/-- C7 witness: concrete instances of the probe contract. -/
theorem C7_scan_port_total_boolean_witness :
    (scan_port (ConnectOutcome.code 0) = true ↔ ConnectOutcome.code 0 = ConnectOutcome.code 0) ∧
    (∀ c : Int, c ≠ 0 → scan_port (ConnectOutcome.code c) = false) ∧
    scan_port ConnectOutcome.raised = false :=
  C7_scan_port_total_boolean (ConnectOutcome.code 0)

/-- C4: when owner resolution finds no process for the port, the close action
answers a failure response carrying exactly the message
`No process found using port {port}`, with exit code 0 (no crash). -/
theorem C4_close_no_process (env : MainEnv) (pr : Option (List Int)) (c : Option Bool)
    (p : Int) (h : get_process_info env.close.owner p = none) :
    mainRun env (.valid ⟨some ("close"), pr, c, some p⟩)
      = (.closeResp false p ("No process found using port " ++ toString p), 0) := by
  simp [mainRun, close_port, h]

/-- C4 witness: port 65534 with nothing listening yields the exact
`No process found using port 65534` failure response. -/
theorem C4_close_no_process_witness :
    get_process_info wMainEnv.close.owner 65534 = none ∧
    mainRun wMainEnv (.valid ⟨some ("close"), none, none, some 65534⟩)
      = (.closeResp false 65534 ("No process found using port " ++ toString (65534 : Int)), 0) ∧
    "No process found using port " ++ toString (65534 : Int)
      = "No process found using port 65534" :=
  ⟨by decide, C4_close_no_process wMainEnv none none 65534 (by decide), by decide⟩

/-- C5: when a kill call (graceful, or forced after a re-probe saw the port
still open) raises a process-not-found error, the close outcome is success
with the `already terminated` message, not an error. -/
theorem C5_vanished_is_success (env : CloseEnv) (port : Int) (info : OwnerInfo) (pid : Nat)
    (hres : get_process_info env.owner port = some info)
    (hpid : pyInt info.process_id = some pid)
    (hkill : env.sigtermRes = some KillExn.processLookup ∨
      (env.sigtermRes = none ∧ scan_port env.probeAfterTerm = true ∧
        env.sigkillRes = some KillExn.processLookup)) :
    (close_port env port).2
      = (true, "Process using port " ++ toString port ++ " was already terminated") := by
  rcases hkill with h | ⟨h1, h2, h3⟩
  · simp [close_port, hres, hpid, h, killHandler]
  · simp [close_port, hres, hpid, h1, h2, h3, killHandler]

/-- C5 witness: the vanished-process environment at port 9090. -/
theorem C5_vanished_is_success_witness :
    get_process_info wCloseVanished.owner 9090 = some ⟨"123", "node", "node server.js"⟩ ∧
    (close_port wCloseVanished 9090).2
      = (true, "Process using port " ++ toString (9090 : Int) ++ " was already terminated") :=
  ⟨by decide,
    C5_vanished_is_success wCloseVanished 9090 ⟨"123", "node", "node server.js"⟩ 123
      (by decide) (by decide) (Or.inl rfl)⟩

/-- C6: when a kill call (graceful, or forced) raises a permission error, the
close outcome is a terminal failure with the distinct permission-denied
message, and the invocation as a whole still answers normally with exit
code 0 (the failure is localized to the close operation). -/
theorem C6_permission_denied (env : MainEnv) (pr : Option (List Int)) (c : Option Bool)
    (port : Int) (info : OwnerInfo) (pid : Nat)
    (hres : get_process_info env.close.owner port = some info)
    (hpid : pyInt info.process_id = some pid)
    (hkill : env.close.sigtermRes = some KillExn.permission ∨
      (env.close.sigtermRes = none ∧ scan_port env.close.probeAfterTerm = true ∧
        env.close.sigkillRes = some KillExn.permission)) :
    mainRun env (.valid ⟨some ("close"), pr, c, some port⟩)
      = (.closeResp false port
          ("Permission denied - cannot terminate process using port " ++ toString port), 0) := by
  rcases hkill with h | ⟨h1, h2, h3⟩
  · simp [mainRun, close_port, hres, hpid, h, killHandler]
  · simp [mainRun, close_port, hres, hpid, h1, h2, h3, killHandler]

/-- C6 witness: the permission-denied environment at port 9090. -/
theorem C6_permission_denied_witness :
    get_process_info wMainEnvPerm.close.owner 9090 = some ⟨"123", "node", "node server.js"⟩ ∧
    mainRun wMainEnvPerm (.valid ⟨some ("close"), none, none, some 9090⟩)
      = (.closeResp false 9090
          ("Permission denied - cannot terminate process using port " ++ toString (9090 : Int)),
         0) :=
  ⟨by decide,
    C6_permission_denied wMainEnvPerm none none 9090 ⟨"123", "node", "node server.js"⟩ 123
      (by decide) (by decide) (Or.inl rfl)⟩

/-- C1: for a scan request with `common_ports_only = false` whose span
`r1 - r0` exceeds 10000, the dispatcher clamps the end in place: the scanned
range is `[r0, r0 + 10000]` (span exactly 10000, deterministically clamped
from the start), the planned port list is exactly `r0 .. r0 + 10000`
inclusive, and the reported `total_scanned` equals its count, 10001. -/
theorem C1_span_clamped (env : MainEnv) (r0 r1 : Int) (h : 10000 < r1 - r0) :
    mainRun env (.valid ⟨some ("scan"), some [r0, r1], some false, none⟩)
      = (.scanOk (scan_ports env.scan [r0, r0 + 10000] false) [r0, r0 + 10000] 10001 false, 0)
    ∧ ports_to_scan [r0, r0 + 10000] false = pyRange r0 (r0 + 10000 + 1)
    ∧ (ports_to_scan [r0, r0 + 10000] false).length = 10001 := by
  refine ⟨?_, ?_, ?_⟩
  · have h1 : ¬ (r1 < r0) := by omega
    have h2 : r0 + 10000 - r0 + 1 = (10001 : Int) := by ring
    simp [mainRun, h, h1, h2]
  · simp [ports_to_scan, List.getD_cons_zero, List.getD_cons_succ]
  · have hp : ports_to_scan [r0, r0 + 10000] false = pyRange r0 (r0 + 10000 + 1) := by
      simp [ports_to_scan, List.getD_cons_zero, List.getD_cons_succ]
    rw [hp]
    simp only [pyRange, List.length_map, List.length_range]
    omega

/-- C1 witness: the default full range `[1, 65535]` requested explicitly with
`common_ports_only = false` is clamped to `[1, 10001]`. -/
theorem C1_span_clamped_witness :
    10000 < (65535 : Int) - 1 ∧
    (mainRun wMainEnv (.valid ⟨some ("scan"), some [1, 65535], some false, none⟩)
      = (.scanOk (scan_ports wMainEnv.scan [1, 1 + 10000] false) [1, 1 + 10000] 10001 false, 0)
    ∧ ports_to_scan [1, 1 + 10000] false = pyRange 1 (1 + 10000 + 1)
    ∧ (ports_to_scan [1, 1 + 10000] false).length = 10001) :=
  ⟨by norm_num, C1_span_clamped wMainEnv 1 65535 (by norm_num)⟩

/-- C8: for a scan request with `common_ports_only = true`, the planned port
list is exactly the members of `COMMON_PORTS` lying within the requested
range, in the set order; the 10000-port cap is not applied (the reported
range is the requested one whatever its span); and `total_scanned` is the
count of those common ports. -/
theorem C8_common_only_filter (env : MainEnv) (r0 r1 : Int) (h : r0 ≤ r1) :
    mainRun env (.valid ⟨some ("scan"), some [r0, r1], some true, none⟩)
      = (.scanOk
          (scan_ports_loop env.scan
            (COMMON_PORTS.filter (fun p => decide (r0 ≤ p ∧ p ≤ r1))))
          [r0, r1]
          ((COMMON_PORTS.filter (fun p => decide (r0 ≤ p ∧ p ≤ r1))).length : Int)
          true, 0)
    ∧ ports_to_scan [r0, r1] true
        = COMMON_PORTS.filter (fun p => decide (r0 ≤ p ∧ p ≤ r1)) := by
  have h1 : ¬ (r1 < r0) := by omega
  constructor
  · simp [mainRun, scan_ports, ports_to_scan, h1]
  · simp [ports_to_scan]

/-- C8 witness: a request spanning far beyond the cap with
`common_ports_only = true` keeps its range uncapped. -/
theorem C8_common_only_filter_witness :
    (1 : Int) ≤ 1000000 ∧
    (mainRun wMainEnv (.valid ⟨some ("scan"), some [1, 1000000], some true, none⟩)
      = (.scanOk
          (scan_ports_loop wMainEnv.scan
            (COMMON_PORTS.filter (fun p => decide ((1 : Int) ≤ p ∧ p ≤ 1000000))))
          [1, 1000000]
          ((COMMON_PORTS.filter (fun p => decide ((1 : Int) ≤ p ∧ p ≤ 1000000))).length : Int)
          true, 0)
    ∧ ports_to_scan [1, 1000000] true
        = COMMON_PORTS.filter (fun p => decide ((1 : Int) ≤ p ∧ p ≤ 1000000))) :=
  ⟨by norm_num, C8_common_only_filter wMainEnv 1 1000000 (by norm_num)⟩

/-- C10: the reported `scan_range` is the in-place clamped range
`[r0, r0 + 10000]` exactly when `common_ports_only` resolves to false and the
requested (or defaulted `[1, 65535]`) span exceeds 10000 — the requested end
is overwritten, never echoed back — and is the requested range unchanged in
every other scan case. -/
theorem C10_scan_range_reported (env : MainEnv) (pr : Option (List Int)) (c : Option Bool)
    (r0 r1 : Int) (common : Bool)
    (hpr : pr.getD [1, 65535] = [r0, r1]) (hc : c.getD false = common) (h : r0 ≤ r1) :
    (10000 < r1 - r0 ∧ common = false →
      ∃ opens total, (mainRun env (.valid ⟨some ("scan"), pr, c, none⟩)).1
        = .scanOk opens [r0, r0 + 10000] total common) ∧
    (¬ (10000 < r1 - r0 ∧ common = false) →
      ∃ opens total, (mainRun env (.valid ⟨some ("scan"), pr, c, none⟩)).1
        = .scanOk opens [r0, r1] total common) := by
  have h1 : ¬ (r1 < r0) := by omega
  constructor
  · rintro ⟨hspan, rfl⟩
    exact ⟨scan_ports env.scan [r0, r0 + 10000] false, min (r0 + 10000 - r0 + 1) 10001,
      by simp [mainRun, hpr, hc, h1, hspan]⟩
  · intro hcond
    cases common with
    | false =>
      have hspan : ¬ (10000 < r1 - r0) := by
        intro hs
        exact hcond ⟨hs, rfl⟩
      exact ⟨scan_ports env.scan [r0, r1] false, min (r1 - r0 + 1) 10001,
        by simp [mainRun, hpr, hc, h1, hspan]⟩
    | true =>
      exact ⟨scan_ports env.scan [r0, r1] true,
        ((COMMON_PORTS.filter (fun p => decide (r0 ≤ p ∧ p ≤ r1))).length : Int),
        by simp [mainRun, hpr, hc, h1]⟩

/-- C10 witness: a scan request with `port_range` omitted and
`common_ports_only` omitted (defaults `[1, 65535]` and `false`) reports the
clamped range `[1, 10001]`, not the defaulted end. -/
theorem C10_scan_range_reported_witness :
    ∃ opens total,
      (mainRun wMainEnv (.valid ⟨some ("scan"), none, none, none⟩)).1
        = Output.scanOk opens [1, 1 + 10000] total false :=
  (C10_scan_range_reported wMainEnv none none 1 65535 false rfl rfl (by norm_num)).1
    ⟨by norm_num, rfl⟩

/-- The port field of a scan record is the probed port, whether or not the
owner was resolved. -/
theorem mkPortRecord_port (p : Int) (i : Option OwnerInfo) : (mkPortRecord p i).port = p := by
  cases i <;> rfl

/-- C9: the scan loop runs to completion over the whole planned list no
matter what owner resolution does: the emitted records are exactly the open
ports in probe order, and a record whose owner is unresolved is still emitted
with the `"unknown"` placeholder strings in all three process fields (a
resolved record carries the best-effort resolver fields, which may
themselves be `"unknown"` placeholders). -/
theorem C9_per_port_isolation (env : ScanEnv) (planned : List Int) :
    ((scan_ports_loop env planned).map PortInfo.port
        = planned.filter (fun p => scan_port (env.probe p))) ∧
    (∀ rec ∈ scan_ports_loop env planned,
      rec.protocol = "tcp" ∧
      (get_process_info (env.owner rec.port) rec.port = none →
        rec.process_name = "unknown" ∧ rec.process_id = "unknown" ∧
          rec.process_command = "unknown") ∧
      (∀ info, get_process_info (env.owner rec.port) rec.port = some info →
        rec.process_name = info.process_name ∧ rec.process_id = info.process_id ∧
          rec.process_command = info.process_command)) := by
  induction planned with
  | nil => exact ⟨rfl, by intro rec hrec; cases hrec⟩
  | cons p rest ih =>
    obtain ⟨ih1, ih2⟩ := ih
    by_cases hp : scan_port (env.probe p) = true
    · refine ⟨?_, ?_⟩
      · simp [scan_ports_loop, hp, mkPortRecord_port, ih1]
      · intro rec hrec
        simp only [scan_ports_loop, hp, if_true, List.mem_cons] at hrec
        rcases hrec with rfl | hrec
        · rw [mkPortRecord_port]
          refine ⟨?_, ?_, ?_⟩
          · cases hI : get_process_info (env.owner p) p <;> simp [mkPortRecord, hI]
          · intro h
            rw [h]
            exact ⟨rfl, rfl, rfl⟩
          · intro info h
            rw [h]
            exact ⟨rfl, rfl, rfl⟩
        · exact ih2 rec hrec
    · refine ⟨?_, ?_⟩
      · simp [scan_ports_loop, hp, ih1]
      · intro rec hrec
        simp only [scan_ports_loop, hp, if_false] at hrec
        exact ih2 rec hrec

/-- C9 witness: the plan `[8079, 8080, 8081]` with a listener only on 8080
and failing owner resolution. -/
theorem C9_per_port_isolation_witness :
    ((scan_ports_loop wScanOpen [8079, 8080, 8081]).map PortInfo.port
        = [8079, 8080, 8081].filter (fun p => scan_port (wScanOpen.probe p))) ∧
    (∀ rec ∈ scan_ports_loop wScanOpen [8079, 8080, 8081],
      rec.protocol = "tcp" ∧
      (get_process_info (wScanOpen.owner rec.port) rec.port = none →
        rec.process_name = "unknown" ∧ rec.process_id = "unknown" ∧
          rec.process_command = "unknown") ∧
      (∀ info, get_process_info (wScanOpen.owner rec.port) rec.port = some info →
        rec.process_name = info.process_name ∧ rec.process_id = info.process_id ∧
          rec.process_command = info.process_command)) :=
  C9_per_port_isolation wScanOpen [8079, 8080, 8081]

/-- C2 counterexample: when the graceful kill raises a process-not-found
error, `close_port` reports success although no verifying re-probe observed
the port closed — the claim as stated (success only after a re-probe showing
the port closed) fails on this input. -/
theorem C2_cex_success_without_reprobe :
    (close_port wCloseVanished 9090).2.1 = true ∧
    (∀ b, CloseEvent.reprobe b ∉ (close_port wCloseVanished 9090).1) := by
  decide

/-- C2 (amended): a forced kill is never issued before the graceful attempt,
its settle wait, and a re-probe observing the port still open; and a success
outcome is never reported without either a verifying re-probe showing the
port closed or a process-not-found error from a kill call (the
`already terminated` outcome). -/
theorem C2_escalation_amended (env : CloseEnv) (port : Int) :
    (CloseEvent.sigkill ∈ (close_port env port).1 →
      (close_port env port).1.take 5
        = [CloseEvent.resolve true, CloseEvent.sigterm, CloseEvent.settle,
           CloseEvent.reprobe true, CloseEvent.sigkill]) ∧
    ((close_port env port).2.1 = true →
      CloseEvent.reprobe false ∈ (close_port env port).1 ∨
      (close_port env port).2.2
        = "Process using port " ++ toString port ++ " was already terminated") := by
  rcases hg : get_process_info env.owner port with _ | info
  · simp [close_port, hg]
  · rcases hp : pyInt info.process_id with _ | pid
    · simp [close_port, hg, hp]
    · rcases ht : env.sigtermRes with _ | e
      · by_cases hpt : scan_port env.probeAfterTerm = true
        · rcases hk : env.sigkillRes with _ | e2
          · by_cases hpk : scan_port env.probeAfterKill = true
            · simp [close_port, hg, hp, ht, hk, hpt, hpk]
            · simp [close_port, hg, hp, ht, hk, hpt, hpk]
          · cases e2 <;> simp [close_port, hg, hp, ht, hk, hpt, killHandler]
        · simp [close_port, hg, hp, ht, hpt]
      · cases e <;> simp [close_port, hg, hp, ht, killHandler]

/-- C2 (amended) witness: a protected process shows the forced kill only as
the fifth event after graceful, settle and an open re-probe; the vanished
process shows the amended success disjunction. -/
theorem C2_escalation_amended_witness :
    (close_port wCloseProtected 9090).1.take 5
      = [CloseEvent.resolve true, CloseEvent.sigterm, CloseEvent.settle,
         CloseEvent.reprobe true, CloseEvent.sigkill] ∧
    (CloseEvent.reprobe false ∈ (close_port wCloseVanished 9090).1 ∨
      (close_port wCloseVanished 9090).2.2
        = "Process using port " ++ toString (9090 : Int) ++ " was already terminated") :=
  ⟨(C2_escalation_amended wCloseProtected 9090).1 (by decide),
   (C2_escalation_amended wCloseVanished 9090).2 (by decide)⟩

/-- C3: every invalid request — empty input, malformed JSON, missing
`action`, a `port_range` that is not a 2-element ascending pair, a `close`
without `port_to_close`, an unknown `action` — yields exactly one failure
object of shape `{"success": false, "message": ...}` with exit code 1; and
for every input the exit code is 1 exactly when the output is the failure
shape, so a successful dispatch exits 0 and no input escapes without exactly
one well-formed response (the function is total). -/
theorem C3_dispatcher_error_handling (env : MainEnv) :
    mainRun env .empty = (.failure ("Error: No input data received"), 1) ∧
    (∀ e, mainRun env (.malformed e) = (.failure ("Invalid JSON input: " ++ e), 1)) ∧
    (∀ pr c pc, mainRun env (.valid ⟨none, pr, c, pc⟩)
      = (.failure ("Error: Missing required field: action"), 1)) ∧
    (∀ pr c pc, (pr.getD [1, 65535]).length ≠ 2 ∨
        (pr.getD [1, 65535]).getD 0 0 > (pr.getD [1, 65535]).getD 1 0 →
      mainRun env (.valid ⟨some ("scan"), pr, c, pc⟩)
        = (.failure ("Error: Invalid port_range: must be [start_port, end_port]"), 1)) ∧
    (∀ pr c, mainRun env (.valid ⟨some ("close"), pr, c, none⟩)
      = (.failure ("Error: Missing required field for close action: port_to_close"), 1)) ∧
    (∀ a pr c pc, a ≠ "scan" → a ≠ "close" →
      mainRun env (.valid ⟨some a, pr, c, pc⟩)
        = (.failure ("Error: " ++ invalidActionMsg a), 1)) ∧
    (∀ input, (mainRun env input).2 = 1 ↔ ∃ m, (mainRun env input).1 = .failure m) := by
  refine ⟨rfl, fun e => rfl, fun pr c pc => rfl, ?_, fun pr c => ?_, ?_, ?_⟩
  · intro pr c pc hbad
    rcases hbad with hlen | hlt
    · simp [mainRun, hlen]
    · simp only [mainRun]
      rw [if_pos (Or.inr hlt)]
      simp
  · simp [mainRun]
  · intro a pr c pc ha hc
    simp [mainRun, ha, hc]
  · intro input
    rcases input with _ | e | ⟨a, pr, c, pc⟩
    · simp [mainRun]
    · simp [mainRun]
    · cases a with
      | none => simp [mainRun]
      | some act =>
        by_cases hs : act = "scan"
        · subst hs
          simp only [mainRun]
          split
          · split
            · simp
            · simp
          · next hf => simp at hf
        · by_cases hcl : act = "close"
          · subst hcl
            cases pc <;> simp [mainRun]
          · simp [mainRun, hs, hcl]

/-- C3 witness: concrete invalid inputs — malformed JSON, a 1-element
`port_range`, an unknown action — each yield the failure shape with exit 1,
and the exit-code/failure-shape equivalence at a concrete input. -/
theorem C3_dispatcher_error_handling_witness :
    mainRun wMainEnv (.malformed ("Expecting value: line 1 column 1 (char 0)"))
      = (.failure ("Invalid JSON input: " ++ "Expecting value: line 1 column 1 (char 0)"), 1) ∧
    mainRun wMainEnv (.valid ⟨some ("scan"), some [80], none, none⟩)
      = (.failure ("Error: Invalid port_range: must be [start_port, end_port]"), 1) ∧
    mainRun wMainEnv (.valid ⟨some ("frobnicate"), none, none, none⟩)
      = (.failure ("Error: " ++ invalidActionMsg ("frobnicate")), 1) ∧
    ((mainRun wMainEnv .empty).2 = 1 ↔ ∃ m, (mainRun wMainEnv .empty).1 = .failure m) :=
  ⟨(C3_dispatcher_error_handling wMainEnv).2.1 ("Expecting value: line 1 column 1 (char 0)"),
   (C3_dispatcher_error_handling wMainEnv).2.2.2.1 (some [80]) none none (by decide),
   (C3_dispatcher_error_handling wMainEnv).2.2.2.2.2.1 ("frobnicate") none none none
     (by decide) (by decide),
   (C3_dispatcher_error_handling wMainEnv).2.2.2.2.2.2 .empty⟩
